import Mathlib

/-!
Verification development for the Order-Execution-Engine repository.

The definitions below are a shallow embedding of the repository's code:
  * `MockDexRouter` (src/src/dex/mockDexRouter.ts and the copies in
    src/worker.js and the test suite): quote synthesis, swap execution.
    Random draws (`Math.random()` outputs in `[0,1)`, the generated uuid,
    `Date.now()` and `crypto.randomBytes(4)`) are passed in explicitly.
  * `processOrder` (the TypeScript worker `src/workers/orderWorker.ts`,
    lines 335-370 of the concatenated source): the order lifecycle engine.
    The outcomes of the external calls (the two quote fetches, the swap
    execution and each `updateOrderStatus` persistence write) are supplied
    by an `Env`; the engine's observable behaviour is the list of status
    events passed to `emitFn` together with its returned/thrown result.
  * the POST /api/orders/execute validation (src/index.ts, lines 47-63
    of part_000, and the identical check in src/server.js).

JavaScript numbers are modelled as rationals; thrown errors are modelled
by their message strings (`Except String`).
-/

set_option maxHeartbeats 1000000

namespace OrderEngine

/-- The two liquidity source tags of `MockDexRouter`. -/
inductive Dex
  | raydium
  | meteora
deriving DecidableEq

/-- A quote as returned by `getRaydiumQuote` / `getMeteoraQuote`:
`{ price, fee, dex }`. -/
structure Quote where
  price : ℚ
  fee : ℚ
  dex : Dex
deriving DecidableEq

/-- The result of `executeSwap`: `{ txHash, executedPrice }`. -/
structure SwapResult where
  txHash : String
  executedPrice : ℚ
deriving DecidableEq

/-- The base price constant `this.basePrice = 100` of `MockDexRouter`. -/
def basePrice : ℚ := 100

/-- The quote `getRaydiumQuote(_tokenIn, _tokenOut, _amount)`:
`price = basePrice * (0.98 + Math.random() * 0.04)`, fee `0.003`.
The token/amount arguments are declared but unused in the source
(`_tokenIn`, `_tokenOut`, `_amount`); `u` is the `Math.random()` draw. -/
def getRaydiumQuote (tokenIn tokenOut : String) (amount : ℚ) (u : ℚ) : Quote :=
  { price := basePrice * (98 / 100 + u * (4 / 100)), fee := 3 / 1000, dex := Dex.raydium }

/-- The quote `getMeteoraQuote(_tokenIn, _tokenOut, _amount)`:
`price = basePrice * (0.97 + Math.random() * 0.05)`, fee `0.002`. -/
def getMeteoraQuote (tokenIn tokenOut : String) (amount : ℚ) (v : ℚ) : Quote :=
  { price := basePrice * (97 / 100 + v * (5 / 100)), fee := 2 / 1000, dex := Dex.meteora }

/-- The source-specific systematic factor of `executeSwap`:
`dex === 'raydium' ? 1.0 : 0.995`. -/
def dexFactor : Dex → ℚ
  | Dex.raydium => 1
  | Dex.meteora => 995 / 1000

/-- The order request payload handled by the engine and the HTTP surface.
Fields are `Option`s so that an absent JSON field is representable. -/
structure ReqBody where
  type : Option String
  tokenIn : Option String
  tokenOut : Option String
  amountIn : Option ℚ
deriving DecidableEq

/-- The swap `executeSwap(dex, _order)` of `src/src/dex/mockDexRouter.ts`:
`txHash = uuidv4()` (the drawn uuid string is `uuid`),
`executedPrice = basePrice * (dex === 'raydium' ? 1.0 : 0.995) * (1 + (Math.random() - 0.5) * 0.01)`.
The `_order` argument is declared but unused; `w` is the `Math.random()` draw. -/
def executeSwapTS (d : Dex) (ord : ReqBody) (uuid : String) (w : ℚ) : SwapResult :=
  { txHash := uuid
    executedPrice := basePrice * dexFactor d * (1 + (w - 1 / 2) * (1 / 100)) }

/-- The comparison `r.price <= m.price ? r : m` — the router's quote selection
(`processOrder`, both the TS worker and src/worker.js). -/
def chooseQuote (r m : Quote) : Quote :=
  if r.price ≤ m.price then r else m

/-- The statuses written through `updateOrderStatus` by the engine, one
key per call site. -/
inductive UpdKey
  | pending
  | routing
  | building
  | submitted
  | confirmed
  | failed
deriving DecidableEq

/-- One run's external outcomes: the two quote fetches, `executeSwap`
on the chosen dex, and each `updateOrderStatus` persistence write.
`Except.error e` models a rejected promise whose error message is `e`. -/
structure Env where
  raydium : Except String Quote
  meteora : Except String Quote
  exec : Dex → Except String SwapResult
  upd : UpdKey → Except String Unit

/-- A status event as passed to `emitFn` by the engine. -/
inductive Event
  | pending
  | routing
  | routingChosen (dex : Dex) (price : ℚ)
  | building
  | submitted
  | confirmed (txHash : String) (executedPrice : ℚ)
  | failed (reason : String)
deriving DecidableEq

/-- The reason extraction `err?.message || String(err)`: for an `Error` whose message is the
empty string, `String(err)` yields the non-empty `"Error"`. -/
def reasonOf (msg : String) : String :=
  if msg = "" then "Error" else msg

/-- The join `Promise.all([getRaydiumQuote(...), getMeteoraQuote(...)])`:
succeeds with both quotes, or rejects with the first rejection. -/
def pickQuotes (env : Env) : Except String (Quote × Quote) :=
  match env.raydium, env.meteora with
  | Except.error e, _ => Except.error e
  | _, Except.error e => Except.error e
  | Except.ok r, Except.ok m => Except.ok (r, m)

/-- The tail of the catch block: after emitting the `failed` event the
engine awaits `updateOrderStatus(orderId, 'failed', reason)`; if that
write itself rejects, its error propagates instead of the original. -/
def failRes (env : Env) (e : String) : Except String String :=
  match env.upd UpdKey.failed with
  | Except.error e2 => Except.error e2
  | Except.ok _ => Except.error e

/-- The lifecycle engine `processOrder(data, orderId, emitFn)` of the
TypeScript worker: returns the list of events emitted through `emitFn`
(in order) and the asynchronous result (`ok txHash` for a normal return,
`error e` for a rejection). Each branch's trace records exactly the
events emitted before the corresponding `await` rejected; the catch
block appends a single `failed` event. -/
def processOrder (env : Env) : List Event × Except String String :=
  match env.upd UpdKey.pending with
  | Except.error e =>
      ([Event.pending, Event.failed (reasonOf e)], failRes env e)
  | Except.ok _ =>
    match pickQuotes env with
    | Except.error e =>
        ([Event.pending, Event.routing, Event.failed (reasonOf e)], failRes env e)
    | Except.ok (r, m) =>
      let c := chooseQuote r m
      match env.upd UpdKey.routing with
      | Except.error e =>
          ([Event.pending, Event.routing, Event.routingChosen c.dex c.price,
            Event.failed (reasonOf e)], failRes env e)
      | Except.ok _ =>
        match env.upd UpdKey.building with
        | Except.error e =>
            ([Event.pending, Event.routing, Event.routingChosen c.dex c.price,
              Event.building, Event.failed (reasonOf e)], failRes env e)
        | Except.ok _ =>
          match env.exec c.dex with
          | Except.error e =>
              ([Event.pending, Event.routing, Event.routingChosen c.dex c.price,
                Event.building, Event.submitted, Event.failed (reasonOf e)], failRes env e)
          | Except.ok ex =>
            match env.upd UpdKey.submitted with
            | Except.error e =>
                ([Event.pending, Event.routing, Event.routingChosen c.dex c.price,
                  Event.building, Event.submitted, Event.failed (reasonOf e)], failRes env e)
            | Except.ok _ =>
              match env.upd UpdKey.confirmed with
              | Except.error e =>
                  ([Event.pending, Event.routing, Event.routingChosen c.dex c.price,
                    Event.building, Event.submitted,
                    Event.confirmed ex.txHash ex.executedPrice,
                    Event.failed (reasonOf e)], failRes env e)
              | Except.ok _ =>
                  ([Event.pending, Event.routing, Event.routingChosen c.dex c.price,
                    Event.building, Event.submitted,
                    Event.confirmed ex.txHash ex.executedPrice],
                   Except.ok ex.txHash)

/-- The status shape of an event, forgetting payloads; the second
`routing` emission (the one carrying `chosen`) is its own shape. -/
inductive Tag
  | pending
  | routing
  | routingChosen
  | building
  | submitted
  | confirmed
  | failed
deriving DecidableEq

/-- Shape of one event. -/
def Event.tag : Event → Tag
  | Event.pending => Tag.pending
  | Event.routing => Tag.routing
  | Event.routingChosen _ _ => Tag.routingChosen
  | Event.building => Tag.building
  | Event.submitted => Tag.submitted
  | Event.confirmed _ _ => Tag.confirmed
  | Event.failed _ => Tag.failed

/-- Shapes of a trace. -/
def tagsOf (tr : List Event) : List Tag :=
  tr.map Event.tag

/-- The success-path status sequence
`[pending, routing, routing(with chosen), building, submitted, confirmed]`. -/
def fullTags : List Tag :=
  [Tag.pending, Tag.routing, Tag.routingChosen, Tag.building, Tag.submitted, Tag.confirmed]

theorem failRes_ne_ok (env : Env) (e h : String) : failRes env e ≠ Except.ok h := by
  unfold failRes
  cases env.upd UpdKey.failed <;> simp

/-- Claim C1: for every processed order, the sequence of status values emitted
by the lifecycle engine is exactly
`[pending, routing, routing-with-chosen-source, building, submitted, confirmed]`
when processing succeeds (normal return), and a non-empty prefix of that
sequence followed by a single `failed` event when any stage fails (rejection);
events are never reordered and `pending` is never skipped. -/
theorem processOrder_status_sequence (env : Env) :
    (∀ h, (processOrder env).2 = Except.ok h → tagsOf (processOrder env).1 = fullTags) ∧
    (∀ e, (processOrder env).2 = Except.error e →
      ∃ n, 1 ≤ n ∧ tagsOf (processOrder env).1 = fullTags.take n ++ [Tag.failed]) := by
  cases h1 : env.upd UpdKey.pending with
  | error e =>
      refine ⟨fun h hh => ?_, fun e' he' => ⟨1, by norm_num, ?_⟩⟩
      · simp [processOrder, h1, failRes_ne_ok] at hh
      · simp only [processOrder, h1]
        rfl
  | ok u =>
    cases h2 : pickQuotes env with
    | error e =>
        refine ⟨fun h hh => ?_, fun e' he' => ⟨2, by norm_num, ?_⟩⟩
        · simp [processOrder, h1, h2, failRes_ne_ok] at hh
        · simp only [processOrder, h1, h2]
          rfl
    | ok rm =>
      obtain ⟨r, m⟩ := rm
      cases h3 : env.upd UpdKey.routing with
      | error e =>
          refine ⟨fun h hh => ?_, fun e' he' => ⟨3, by norm_num, ?_⟩⟩
          · simp [processOrder, h1, h2, h3, failRes_ne_ok] at hh
          · simp only [processOrder, h1, h2, h3]
            rfl
      | ok u2 =>
        cases h4 : env.upd UpdKey.building with
        | error e =>
            refine ⟨fun h hh => ?_, fun e' he' => ⟨4, by norm_num, ?_⟩⟩
            · simp [processOrder, h1, h2, h3, h4, failRes_ne_ok] at hh
            · simp only [processOrder, h1, h2, h3, h4]
              rfl
        | ok u3 =>
          cases h5 : env.exec (chooseQuote r m).dex with
          | error e =>
              refine ⟨fun h hh => ?_, fun e' he' => ⟨5, by norm_num, ?_⟩⟩
              · simp [processOrder, h1, h2, h3, h4, h5, failRes_ne_ok] at hh
              · simp only [processOrder, h1, h2, h3, h4, h5]
                rfl
          | ok ex =>
            cases h6 : env.upd UpdKey.submitted with
            | error e =>
                refine ⟨fun h hh => ?_, fun e' he' => ⟨5, by norm_num, ?_⟩⟩
                · simp [processOrder, h1, h2, h3, h4, h5, h6, failRes_ne_ok] at hh
                · simp only [processOrder, h1, h2, h3, h4, h5, h6]
                  rfl
            | ok u4 =>
              cases h7 : env.upd UpdKey.confirmed with
              | error e =>
                  refine ⟨fun h hh => ?_, fun e' he' => ⟨6, by norm_num, ?_⟩⟩
                  · simp [processOrder, h1, h2, h3, h4, h5, h6, h7, failRes_ne_ok] at hh
                  · simp only [processOrder, h1, h2, h3, h4, h5, h6, h7]
                    rfl
              | ok u5 =>
                  refine ⟨fun h hh => ?_, fun e' he' => ?_⟩
                  · simp only [processOrder, h1, h2, h3, h4, h5, h6, h7]
                    rfl
                  · simp [processOrder, h1, h2, h3, h4, h5, h6, h7] at he'

/-- A quote pair matching end-to-end scenario B: raydium at 120. -/
def q120 : Quote := { price := 120, fee := 3 / 1000, dex := Dex.raydium }

/-- A quote pair matching end-to-end scenario B: meteora at 100. -/
def q100 : Quote := { price := 100, fee := 2 / 1000, dex := Dex.meteora }

/-- A successful execution result. -/
def swOK : SwapResult := { txHash := "tx-1", executedPrice := 100 }

/-- An environment in which every external call succeeds and the quotes
are raydium at 120 and meteora at 100 (end-to-end scenario B). -/
def envOK : Env :=
  { raydium := Except.ok q120
    meteora := Except.ok q100
    exec := fun _ => Except.ok swOK
    upd := fun _ => Except.ok () }

/-- Witness for C1: in the all-success environment the engine returns
normally and its status sequence is exactly the success sequence. -/
theorem processOrder_status_sequence_witness :
    tagsOf (processOrder envOK).1 = fullTags :=
  (processOrder_status_sequence envOK).1 "tx-1" rfl

/-- Claim C2: the router chooses the quote with the numerically lower price;
on an exact tie the choice is deterministic (the raydium quote, the first
argument of the comparison, is always chosen); with prices 120 and 100 the
100-priced quote is chosen, in either assignment; and whenever both quote
fetches succeed (and the initial persistence write does not reject first),
the engine emits a `routing` event carrying exactly the chosen quote's tag
and price. -/
theorem router_chooses_lower_price (r m : Quote) (env : Env) :
    (chooseQuote r m).price = min r.price m.price ∧
    (r.price = m.price → chooseQuote r m = r) ∧
    (r.price = 120 → m.price = 100 → chooseQuote r m = m) ∧
    (r.price = 100 → m.price = 120 → chooseQuote r m = r) ∧
    (env.upd UpdKey.pending = Except.ok () → env.raydium = Except.ok r →
      env.meteora = Except.ok m →
      Event.routingChosen (chooseQuote r m).dex (chooseQuote r m).price ∈
        (processOrder env).1) := by
  refine ⟨?_, ?_, ?_, ?_, ?_⟩
  · by_cases h : r.price ≤ m.price
    · simp [chooseQuote, h, min_eq_left h]
    · simp [chooseQuote, h, min_eq_right (le_of_not_le h)]
  · intro h
    simp [chooseQuote, le_of_eq h]
  · intro h1 h2
    rw [chooseQuote, h1, h2]
    norm_num
  · intro h1 h2
    rw [chooseQuote, h1, h2]
    norm_num
  · intro hu hr hm
    have hq : pickQuotes env = Except.ok (r, m) := by
      simp [pickQuotes, hr, hm]
    cases h3 : env.upd UpdKey.routing with
    | error e => simp [processOrder, hu, hq, h3]
    | ok u2 =>
      cases h4 : env.upd UpdKey.building with
      | error e => simp [processOrder, hu, hq, h3, h4]
      | ok u3 =>
        cases h5 : env.exec (chooseQuote r m).dex with
        | error e => simp [processOrder, hu, hq, h3, h4, h5]
        | ok ex =>
          cases h6 : env.upd UpdKey.submitted with
          | error e => simp [processOrder, hu, hq, h3, h4, h5, h6]
          | ok u4 =>
            cases h7 : env.upd UpdKey.confirmed with
            | error e => simp [processOrder, hu, hq, h3, h4, h5, h6, h7]
            | ok u5 => simp [processOrder, hu, hq, h3, h4, h5, h6, h7]

/-- Witness for C2: with raydium quoting 120 and meteora quoting 100, the
meteora quote is chosen and the engine's routing event carries its tag. -/
theorem router_chooses_lower_price_witness :
    chooseQuote q120 q100 = q100 ∧
    chooseQuote q100 q100 = q100 ∧
    Event.routingChosen (chooseQuote q120 q100).dex (chooseQuote q120 q100).price ∈
      (processOrder envOK).1 :=
  ⟨(router_chooses_lower_price q120 q100 envOK).2.2.1 rfl rfl,
   (router_chooses_lower_price q100 q100 envOK).2.1 rfl,
   (router_chooses_lower_price q120 q100 envOK).2.2.2.2 rfl rfl rfl⟩

/-- The quote pair used by the adapter-failure environments. -/
def qR : Quote := { price := 98, fee := 3 / 1000, dex := Dex.raydium }

/-- Meteora quote at 99: raydium wins the comparison. -/
def qM : Quote := { price := 99, fee := 2 / 1000, dex := Dex.meteora }

/-- An environment in which the very first persistence write
(`updateOrderStatus(orderId, 'pending')`) rejects with "db down" and every
other external call succeeds. -/
def envDbPending : Env :=
  { raydium := Except.ok qR
    meteora := Except.ok qM
    exec := fun _ => Except.ok swOK
    upd := fun k => if k = UpdKey.pending then Except.error "db down" else Except.ok () }

/-- Claim C4 (code bug): a rejected `updateOrderStatus` call is awaited
inside the engine's try block with no handler of its own, so a persistence
failure on the `pending` transition aborts the run: the engine emits only
`[pending, failed "db down"]` (routing never starts) and the error
surfaces to the caller — it is not swallowed. -/
theorem persistence_failure_not_swallowed :
    processOrder envDbPending =
      ([Event.pending, Event.failed "db down"], Except.error "db down") := rfl

/-- An environment in which only the persistence write for the `confirmed`
transition rejects. -/
def envDbConfirmed : Env :=
  { raydium := Except.ok qR
    meteora := Except.ok qM
    exec := fun _ => Except.ok swOK
    upd := fun k => if k = UpdKey.confirmed then Except.error "db down" else Except.ok () }

/-- Claim C5 (code bug): `confirmed` is not absorbing — when the persistence
write after the `confirmed` emission rejects, the catch block emits a
further `failed` event, so one order receives both a `confirmed` and a
`failed` event. -/
theorem confirmed_not_absorbing :
    processOrder envDbConfirmed =
      ([Event.pending, Event.routing, Event.routingChosen Dex.raydium 98, Event.building,
        Event.submitted, Event.confirmed "tx-1" 100, Event.failed "db down"],
       Except.error "db down") ∧
    Event.confirmed "tx-1" 100 ∈ (processOrder envDbConfirmed).1 ∧
    Event.failed "db down" ∈ (processOrder envDbConfirmed).1 := by
  have h : processOrder envDbConfirmed =
      ([Event.pending, Event.routing, Event.routingChosen Dex.raydium 98, Event.building,
        Event.submitted, Event.confirmed "tx-1" 100, Event.failed "db down"],
       Except.error "db down") := rfl
  refine ⟨h, ?_, ?_⟩ <;> rw [h] <;> simp

/-- An environment in which the swap execution rejects with "swap failed"
and the persistence write for the `failed` transition rejects with
"db down". -/
def envSwapDbFail : Env :=
  { raydium := Except.ok qR
    meteora := Except.ok qM
    exec := fun _ => Except.error "swap failed"
    upd := fun k => if k = UpdKey.failed then Except.error "db down" else Except.ok () }

/-- Claim C6 (code bug): the `failed` event carries reason "swap failed",
but because `updateOrderStatus(orderId, 'failed', reason)` is awaited inside
the catch block, its own rejection replaces the original error: the engine
rejects with "db down", not with the failure the `failed` event reports. -/
theorem failed_reason_vs_rejection_mismatch :
    processOrder envSwapDbFail =
      ([Event.pending, Event.routing, Event.routingChosen Dex.raydium 98, Event.building,
        Event.submitted, Event.failed "swap failed"],
       Except.error "db down") ∧
    ("db down" : String) ≠ "swap failed" :=
  ⟨rfl, by decide⟩

/-- JS truthiness of an optional string field (`!body.tokenIn`):
absent and the empty string are falsy. -/
def truthyStr : Option String → Bool
  | none => false
  | some s => decide (s ≠ "")

/-- JS truthiness of the optional numeric `amountIn` (`!body.amountIn`):
absent and zero are falsy; any non-zero number (negative included) is
truthy. -/
def truthyAmt : Option ℚ → Bool
  | none => false
  | some a => decide (a ≠ 0)

/-- The condition of the POST /api/orders/execute handler, negated:
`!(!body || body.type !== 'market' || !body.tokenIn || !body.tokenOut || !body.amountIn)`. -/
def validateBody (body : ReqBody) : Bool :=
  decide (body.type = some "market") && truthyStr body.tokenIn &&
    truthyStr body.tokenOut && truthyAmt body.amountIn

/-- The handler's validation over a possibly-absent JSON body. -/
def validateOrder : Option ReqBody → Bool
  | none => false
  | some body => validateBody body

/-- The submit endpoint's decision: a rejected request gets a 400 reply
and never reaches `saveOrder`/`addOrder` (hence never the engine); an
accepted one is persisted, enqueued and eventually processed. -/
inductive SubmitResult
  | rejected (code : ℕ) (msg : String)
  | accepted (body : ReqBody)
deriving DecidableEq

/-- The POST /api/orders/execute handler (src/index.ts lines 47-63):
validate, then either reply 400 or enqueue the order for the engine. -/
def handleSubmit (b : Option ReqBody) : SubmitResult :=
  match b with
  | none =>
      SubmitResult.rejected 400 "invalid order. required: type=market, tokenIn, tokenOut, amountIn"
  | some body =>
      if validateBody body then SubmitResult.accepted body
      else SubmitResult.rejected 400 "invalid order. required: type=market, tokenIn, tokenOut, amountIn"

/-- The acceptance condition in the words of claim C3: type "market", both
tokens present, `amountIn` present and strictly positive. -/
def specAccepts (b : Option ReqBody) : Prop :=
  ∃ body, b = some body ∧ body.type = some "market" ∧
    body.tokenIn ≠ none ∧ body.tokenOut ≠ none ∧
    ∃ a, body.amountIn = some a ∧ 0 < a

/-- A market order with a negative `amountIn`. -/
def negReq : ReqBody :=
  { type := some "market", tokenIn := some "SOL", tokenOut := some "USDC",
    amountIn := some (-5) }

/-- Counterexample for C3: the handler accepts a request whose `amountIn`
is -5 (JS truthiness only rejects absent or zero amounts), although the
claim requires every request with `amountIn ≤ 0` to be rejected. -/
theorem submit_validation_counterexample :
    handleSubmit (some negReq) = SubmitResult.accepted negReq ∧
    ¬ specAccepts (some negReq) := by
  constructor
  · rfl
  · rintro ⟨body, hb, -, -, -, a, ha, hpos⟩
    injection hb with hb'
    subst hb'
    have ha' : some (-5 : ℚ) = some a := ha
    injection ha' with ha''
    rw [← ha''] at hpos
    norm_num at hpos

theorem handleSubmit_accepted_iff (b : Option ReqBody) :
    (∃ body, handleSubmit b = SubmitResult.accepted body) ↔ validateOrder b = true := by
  cases b with
  | none => simp [handleSubmit, validateOrder]
  | some body =>
      by_cases h : validateBody body
      · simp [handleSubmit, validateOrder, h]
      · simp [handleSubmit, validateOrder, h]

theorem validateBody_iff (body : ReqBody) :
    validateBody body = true ↔
      (body.type = some "market" ∧
        (∃ s, body.tokenIn = some s ∧ s ≠ "") ∧
        (∃ s, body.tokenOut = some s ∧ s ≠ "") ∧
        (∃ a, body.amountIn = some a ∧ a ≠ 0)) := by
  obtain ⟨ty, ti, tout, am⟩ := body
  cases ti <;> cases tout <;> cases am <;>
    (simp [validateBody, truthyStr, truthyAmt]; try tauto)

/-- Claim C3 amended: the submit endpoint invokes the engine if and only if
`type = "market"`, `tokenIn` and `tokenOut` are present and non-empty, and
`amountIn` is present and non-zero — truthiness, not positivity: a negative
`amountIn` is accepted, only an absent or zero one is rejected (and every
rejection happens before any status event or state-machine entry). -/
theorem submit_validation_amended (b : Option ReqBody) :
    (∃ body, handleSubmit b = SubmitResult.accepted body) ↔
      (∃ body, b = some body ∧ body.type = some "market" ∧
        (∃ s, body.tokenIn = some s ∧ s ≠ "") ∧
        (∃ s, body.tokenOut = some s ∧ s ≠ "") ∧
        (∃ a, body.amountIn = some a ∧ a ≠ 0)) := by
  rw [handleSubmit_accepted_iff]
  cases b with
  | none => simp [validateOrder]
  | some body =>
      rw [show validateOrder (some body) = validateBody body from rfl, validateBody_iff]
      simp

/-- A well-formed market order request. -/
def goodReq : ReqBody :=
  { type := some "market", tokenIn := some "SOL", tokenOut := some "USDC",
    amountIn := some 100 }

/-- Witness for amended C3: a well-formed market order is accepted. -/
theorem submit_validation_amended_witness :
    ∃ body, handleSubmit (some goodReq) = SubmitResult.accepted body :=
  (submit_validation_amended (some goodReq)).2
    ⟨goodReq, rfl, rfl, ⟨"SOL", rfl, by decide⟩, ⟨"USDC", rfl, by decide⟩,
      ⟨100, rfl, by norm_num⟩⟩

/-- The hex rendering `crypto.randomBytes(4).toString('hex')`: the eight lowercase hex
digits of the 32-bit value `b`, most significant first. -/
def hex8 (b : ℕ) : List Char :=
  (List.range 8).map (fun i => Nat.digitChar (b / 16 ^ (7 - i) % 16))

/-- Decimal rendering of a natural number, as produced by the JS template
interpolation of `Date.now()`. -/
def decRepr (n : ℕ) : List Char :=
  if n = 0 then ['0'] else ((Nat.digits 10 n).map Nat.digitChar).reverse

/-- The settlement-identifier generator of src/worker.js,
`${Date.now()}-${crypto.randomBytes(4).toString('hex')}`, as the character
list of the produced string; `t` is the millisecond timestamp and `b` the
32-bit random value. -/
def txHashW (t b : ℕ) : List Char :=
  decRepr t ++ '-' :: hex8 b

theorem digitChar_inj16 : ∀ x < 16, ∀ y < 16, Nat.digitChar x = Nat.digitChar y → x = y := by
  decide

theorem mapDigitChar_inj :
    ∀ l1 l2 : List ℕ, (∀ d ∈ l1, d < 16) → (∀ d ∈ l2, d < 16) →
      l1.map Nat.digitChar = l2.map Nat.digitChar → l1 = l2 := by
  intro l1
  induction l1 with
  | nil =>
      intro l2 _ _ h
      cases l2 with
      | nil => rfl
      | cons d2 t2 => simp at h
  | cons d t ih =>
      intro l2 h1 h2 h
      cases l2 with
      | nil => simp at h
      | cons d2 t2 =>
          simp only [List.map_cons, List.cons.injEq] at h
          have hd : d = d2 :=
            digitChar_inj16 d (h1 d (by simp)) d2 (h2 d2 (by simp)) h.1
          have ht : t = t2 :=
            ih t2 (fun x hx => h1 x (by simp [hx])) (fun x hx => h2 x (by simp [hx])) h.2
          rw [hd, ht]

theorem decRepr_eq_zero_list {b : ℕ} (h : decRepr b = ['0']) : b = 0 := by
  by_cases hb : b = 0
  · exact hb
  · exfalso
    rw [decRepr, if_neg hb] at h
    have h' : (Nat.digits 10 b).map Nat.digitChar = ['0'] := by
      have := congrArg List.reverse h
      simpa using this
    cases hd : Nat.digits 10 b with
    | nil => rw [hd] at h'; simp at h'
    | cons d t =>
        rw [hd] at h'
        simp only [List.map_cons, List.cons.injEq] at h'
        have hdin : d ∈ Nat.digits 10 b := by
          rw [hd]; exact List.mem_cons_self d t
        have hd10 : d < 10 := Nat.digits_lt_base (by norm_num) hdin
        have hd0 : d = 0 :=
          digitChar_inj16 d (by omega) 0 (by omega) (by simpa using h'.1)
        have ht : t = [] := List.map_eq_nil_iff.mp h'.2
        have h0 := Nat.ofDigits_digits 10 b
        rw [hd, hd0, ht] at h0
        simp [Nat.ofDigits] at h0
        exact hb h0.symm

theorem decRepr_inj {a b : ℕ} (h : decRepr a = decRepr b) : a = b := by
  by_cases ha : a = 0
  · subst ha
    exact (decRepr_eq_zero_list h.symm).symm
  · by_cases hb : b = 0
    · subst hb
      exact decRepr_eq_zero_list h
    · rw [decRepr, if_neg ha, decRepr, if_neg hb] at h
      have h2 := List.reverse_injective h
      have h3 := mapDigitChar_inj _ _
        (fun d hd => lt_trans (Nat.digits_lt_base (by norm_num) hd) (by norm_num))
        (fun d hd => lt_trans (Nat.digits_lt_base (by norm_num) hd) (by norm_num)) h2
      exact Nat.digits_inj_iff.mp h3

theorem hex8_inj {b1 b2 : ℕ} (h1 : b1 < 16 ^ 8) (h2 : b2 < 16 ^ 8)
    (h : hex8 b1 = hex8 b2) : b1 = b2 := by
  have hdig : ∀ k, k < 8 → b1 / 16 ^ k % 16 = b2 / 16 ^ k % 16 := by
    intro k hk
    have hmem : 7 - k ∈ List.range 8 := by
      simp only [List.mem_range]
      omega
    have heq := List.map_inj_left.mp h (7 - k) hmem
    have h77 : 7 - (7 - k) = k := by omega
    rw [h77] at heq
    exact digitChar_inj16 _ (Nat.mod_lt _ (by norm_num)) _ (Nat.mod_lt _ (by norm_num)) heq
  have e0 := hdig 0 (by norm_num)
  have e1 := hdig 1 (by norm_num)
  have e2 := hdig 2 (by norm_num)
  have e3 := hdig 3 (by norm_num)
  have e4 := hdig 4 (by norm_num)
  have e5 := hdig 5 (by norm_num)
  have e6 := hdig 6 (by norm_num)
  have e7 := hdig 7 (by norm_num)
  norm_num at e0 e1 e2 e3 e4 e5 e6 e7 h1 h2
  omega

theorem hex8_length (b : ℕ) : (hex8 b).length = 8 := by
  simp [hex8]

theorem txHashW_inj {t1 b1 t2 b2 : ℕ} (hb1 : b1 < 16 ^ 8) (hb2 : b2 < 16 ^ 8)
    (h : txHashW t1 b1 = txHashW t2 b2) : t1 = t2 ∧ b1 = b2 := by
  have hlen : ('-' :: hex8 b1).length = ('-' :: hex8 b2).length := by
    simp [hex8_length]
  obtain ⟨h1, h2⟩ := List.append_inj' h hlen
  have h3 : hex8 b1 = hex8 b2 := by
    injection h2
  exact ⟨decRepr_inj h1, hex8_inj hb1 hb2 h3⟩

/-- Counterexample for C7: two different `executeSwap` calls (different
dex and different noise draw, hence different results) that receive the
same uuid draw return the same settlement identifier — the generator
derives the identifier solely from the random draw and enforces no
cross-call uniqueness, so a repeated draw collides. -/
theorem txHash_collision_counterexample :
    (executeSwapTS Dex.raydium goodReq "fixed-uuid" (1 / 2)).txHash =
      (executeSwapTS Dex.meteora goodReq "fixed-uuid" (1 / 4)).txHash ∧
    executeSwapTS Dex.raydium goodReq "fixed-uuid" (1 / 2) ≠
      executeSwapTS Dex.meteora goodReq "fixed-uuid" (1 / 4) := by
  constructor
  · rfl
  · intro h
    have := congrArg SwapResult.executedPrice h
    norm_num [executeSwapTS, dexFactor, basePrice] at this

/-- Claim C7 amended: settlement identifiers are distinct exactly when the
underlying random draws are distinct — for `src/src/dex/mockDexRouter.ts`
the identifier equals the drawn uuid, and for src/worker.js the rendering
`timestamp-hex(randomBytes)` is injective on 32-bit random values — but
nothing in the code prevents equal draws, so uniqueness is inherited from
the RNG rather than enforced. -/
theorem txHash_unique_iff_draws_distinct
    (d1 d2 : Dex) (o1 o2 : ReqBody) (u1 u2 : String) (w1 w2 : ℚ)
    (t1 t2 b1 b2 : ℕ) (hb1 : b1 < 16 ^ 8) (hb2 : b2 < 16 ^ 8) :
    ((executeSwapTS d1 o1 u1 w1).txHash = (executeSwapTS d2 o2 u2 w2).txHash ↔ u1 = u2) ∧
    (txHashW t1 b1 = txHashW t2 b2 ↔ t1 = t2 ∧ b1 = b2) := by
  refine ⟨by simp [executeSwapTS], ?_, ?_⟩
  · exact txHashW_inj hb1 hb2
  · rintro ⟨rfl, rfl⟩
    rfl

/-- Witness for amended C7: concrete instantiation — identifiers built
from the same timestamp but different random words are distinct. -/
theorem txHash_unique_iff_draws_distinct_witness :
    txHashW 12 34 = txHashW 12 56 ↔ (12 = 12 ∧ 34 = 56) :=
  (txHash_unique_iff_draws_distinct Dex.raydium Dex.raydium goodReq goodReq
    "u" "u" 0 0 12 12 34 56 (by norm_num) (by norm_num)).2

/-- Claim C8 (code bug): with draws inside the stated `[0,1)` ranges —
`u = 0` (raydium quotes 98), `v = 1/2` (meteora quotes 99.5, so raydium is
chosen) and `w = 9/10` (executed price 100.4) — the realized slippage
relative to the chosen quote is `6/245 ≈ 2.45%`, violating the claimed
1% bound that the repository's own test 10 asserts. -/
theorem slippage_bound_violated :
    chooseQuote (getRaydiumQuote "SOL" "USDC" 100 0) (getMeteoraQuote "SOL" "USDC" 100 (1 / 2)) =
      getRaydiumQuote "SOL" "USDC" 100 0 ∧
    |(executeSwapTS Dex.raydium goodReq "u" (9 / 10)).executedPrice -
        (getRaydiumQuote "SOL" "USDC" 100 0).price| /
      (getRaydiumQuote "SOL" "USDC" 100 0).price = 6 / 245 ∧
    ¬(|(executeSwapTS Dex.raydium goodReq "u" (9 / 10)).executedPrice -
        (getRaydiumQuote "SOL" "USDC" 100 0).price| /
      (getRaydiumQuote "SOL" "USDC" 100 0).price < 1 / 100) := by
  have hle : (getRaydiumQuote "SOL" "USDC" 100 0).price ≤
      (getMeteoraQuote "SOL" "USDC" 100 (1 / 2)).price := by
    norm_num [getRaydiumQuote, getMeteoraQuote, basePrice]
  have hval : |(executeSwapTS Dex.raydium goodReq "u" (9 / 10)).executedPrice -
      (getRaydiumQuote "SOL" "USDC" 100 0).price| /
      (getRaydiumQuote "SOL" "USDC" 100 0).price = 6 / 245 := by
    have habs : (executeSwapTS Dex.raydium goodReq "u" (9 / 10)).executedPrice -
        (getRaydiumQuote "SOL" "USDC" 100 0).price = 12 / 5 := by
      norm_num [executeSwapTS, getRaydiumQuote, dexFactor, basePrice]
    rw [habs]
    rw [abs_of_nonneg (by norm_num)]
    norm_num [getRaydiumQuote, basePrice]
  refine ⟨by simp only [chooseQuote, if_pos hle], hval, ?_⟩
  rw [hval]
  norm_num

/-- Claim C10: the quote prices, fees and the executed price are
independent of the order's contents — for equal random draws, the quote
functions return identical quotes whatever the token pair and amount, and
`executeSwap` returns an executed price that is a function of the source
tag and the noise draw only, never of the order or of the chosen quote's
price. -/
theorem dex_model_ignores_order
    (t1 t2 o1 o2 : String) (a1 a2 : ℚ) (u v : ℚ)
    (d : Dex) (ord1 ord2 : ReqBody) (uu : String) (w : ℚ) :
    getRaydiumQuote t1 o1 a1 u = getRaydiumQuote t2 o2 a2 u ∧
    getMeteoraQuote t1 o1 a1 v = getMeteoraQuote t2 o2 a2 v ∧
    executeSwapTS d ord1 uu w = executeSwapTS d ord2 uu w ∧
    (executeSwapTS d ord1 uu w).executedPrice =
      basePrice * dexFactor d * (1 + (w - 1 / 2) * (1 / 100)) :=
  ⟨rfl, rfl, rfl, rfl⟩

end OrderEngine
